import Mathlib

/-!
Verification of the fixation-distance pipeline shared by
`building_distance.py` and `outliers.py`.

The two scripts contain the same pipeline (outliers.py additionally carries
`frame_nr` / `session` provenance and the IQR outlier step, so the richer
record shape is modelled):

* KMZ registry loading: find the first archive entry ending in `.kml`,
  parse its placemarks into `house_coords : id -> (lat, lon, name)`.
* Per (exploration, tracker) session pair: load GPS rows (coerce
  `synced_time`, drop nulls, sort by time) and fixation rows (coerce
  `start_timestamp_ns`, drop NaT, keep rows with `house_nr != 0` and
  `house_nr` a registry key); for each surviving fixation find the
  trajectory sample with minimal `|synced_time - t|` (pandas `idxmin`:
  first minimum in order) and emit a result record with the geodesic
  distance.
* Pool all results, compute Q1/Q3 (pandas linear-interpolation
  quantiles) and keep results outside `(Q1 - 1.5*IQR, Q3 + 1.5*IQR)`.

Modelling conventions:
* timestamps are integers (pandas datetime64[ns] is an integer
  nanosecond count; NaT / failed coercion is `Option.none` on raw rows);
* latitudes, longitudes and distances are rationals standing for the
  floats of the source — no claim computes with them except through the
  geodesic function, which is an explicit function parameter `geod`
  (geopy is an external collaborator whose contract is assumed);
* Python exceptions are `Except` errors: the scripts have no try/except
  around the session loop, so an error short-circuits the whole batch,
  exactly as an uncaught exception kills the script;
* CSV/XLSX/XML field extraction is a library collaborator: raw rows and
  placemarks arrive as already-split typed fields.
-/

/-- Python exceptions that the modelled code paths can raise:
`emptySeriesArgmin` is the `ValueError` from `Series.idxmin` on an empty
series, `valueError` the unpack failure of `lon, lat, *_ = ...` on fewer
than two fields, `keyError` the `KeyError` of a missing DataFrame column. -/
inductive PyError where
  | emptySeriesArgmin
  | valueError
  | keyError
deriving DecidableEq

/-- One registry value: `house_coords[house_id] = (lat, lon, name_text)`. -/
structure Building where
  latitude : ℚ
  longitude : ℚ
  name : String
deriving DecidableEq

/-- `house_coords`, the mapping from building id to record.  Modelled as an
association list with unique keys (see `dictInsert`). -/
abbrev Registry := List (ℤ × Building)

/-- One `<Placemark>` as the XML library hands it over: `name_text` is the
stripped text of the `<name>` child (`none` when the child is missing) and
`point` the comma-split, float-parsed fields of `<Point><coordinates>`
(`none` when there is no point geometry). -/
structure Placemark where
  name_text : Option String
  point : Option (List ℚ)
deriving DecidableEq

/-- `name.endswith('.kml')` from the KMZ entry scan, written out on the
character list because only literal names reach it. -/
def endsWithKml (s : String) : Bool :=
  match s.toList.reverse with
  | c1 :: c2 :: c3 :: c4 :: _ => c1 == 'l' && c2 == 'm' && c3 == 'k' && c4 == '.'
  | _ => false

/-- The `for name in z.namelist(): if name.endswith('.kml'): ...; break`
loop: the first archive entry whose name ends in `.kml`, with its parsed
placemark content, or `none` when no entry matches. -/
def findKmlEntry : List (String × List Placemark) → Option (String × List Placemark)
  | [] => none
  | e :: rest => if endsWithKml e.1 then some e else findKmlEntry rest

/-- Whitespace characters of the regex class `\s`. -/
def isPySpace (c : Char) : Bool :=
  c == ' ' || c == '\t' || c == '\n' || c == '\r' || c == '\x0b' || c == '\x0c'

/-- Digit run to a number, for the regex capture group. -/
def digitsToNat (l : List Char) : ℕ :=
  l.foldl (fun a c => 10 * a + (c.toNat - 48)) 0

/-- `re.match(r'Punkt\s*(\d+)', name_text, re.IGNORECASE)` followed by
`int(match.group(1))`: an anchored case-insensitive `Punkt`, any amount of
whitespace, then at least one digit; trailing text is allowed. -/
def punktId (s : String) : Option ℤ :=
  match s.toList with
  | c1 :: c2 :: c3 :: c4 :: c5 :: rest =>
    if c1.toLower == 'p' && c2.toLower == 'u' && c3.toLower == 'n' &&
        c4.toLower == 'k' && c5.toLower == 't' then
      let digits := (rest.dropWhile isPySpace).takeWhile Char.isDigit
      if digits.isEmpty then none else some (Int.ofNat (digitsToNat digits))
    else none
  | _ => none

/-- Python dict assignment `house_coords[house_id] = v`: the key is unique
afterwards and a later assignment overwrites an earlier one. -/
def dictInsert (m : Registry) (k : ℤ) (b : Building) : Registry :=
  m.filter (fun e => e.1 != k) ++ [(k, b)]

/-- One iteration of the placemark loop: skip placemarks without name or
point and names that do not match the pattern; unpack
`lon, lat, *_ = map(float, coords.split(','))` — which raises `ValueError`
on fewer than two fields — and store the pair swapped as `(lat, lon)`. -/
def processPlacemark (m : Registry) (pm : Placemark) : Except PyError Registry :=
  match pm.name_text, pm.point with
  | some nt, some coords =>
    match punktId nt with
    | none => .ok m
    | some hid =>
      match coords with
      | lon :: lat :: _ => .ok (dictInsert m hid ⟨lat, lon, nt⟩)
      | _ => .error .valueError
  | _, _ => .ok m

/-- The placemark loop itself, threading `house_coords`. -/
def buildRegistry (m : Registry) : List Placemark → Except PyError Registry
  | [] => .ok m
  | pm :: pms =>
    match processPlacemark m pm with
    | .error e => .error e
    | .ok m2 => buildRegistry m2 pms

/-- KMZ loading as a whole: scan the archive entry names; when no `.kml`
entry exists `kml_file` stays `None`, the `if kml_file:` body is skipped
and `house_coords` remains the empty dict — no exception is raised.
Otherwise the placemarks of that first entry are folded into the dict. -/
def loadRegistry (archive : List (String × List Placemark)) : Except PyError Registry :=
  match findKmlEntry archive with
  | none => .ok []
  | some e => buildRegistry [] e.2

/-- A raw GPS CSV row after `pd.to_datetime(..., errors='coerce')`:
`none` fields model nulls / failed coercion (NaT). -/
structure RawGps where
  latitude : Option ℚ
  longitude : Option ℚ
  synced_time : Option ℤ
deriving DecidableEq

/-- A cleaned trajectory sample (all required fields present). -/
structure Sample where
  latitude : ℚ
  longitude : ℚ
  synced_time : ℤ
deriving DecidableEq

/-- `dropna(subset=['latitude', 'longitude', 'synced_time'])` on one row. -/
def toSample (r : RawGps) : Option Sample :=
  match r.latitude, r.longitude, r.synced_time with
  | some la, some lo, some t => some ⟨la, lo, t⟩
  | _, _, _ => none

/-- Insertion step of the timestamp sort.  The source line is
`sort_values(by='synced_time')` whose default `kind='quicksort'` leaves
the relative order of equal timestamps algorithm-defined; this embedding
fixes one order-by-timestamp arrangement and no theorem below relies on
the order among equal timestamps. -/
def insertByTime (s : Sample) : List Sample → List Sample
  | [] => [s]
  | x :: xs => if s.synced_time ≤ x.synced_time then s :: x :: xs else x :: insertByTime s xs

/-- The trajectory loader: drop incomplete rows, sort by `synced_time`. -/
def gps_clean (rows : List RawGps) : List Sample :=
  (rows.filterMap toSample).foldr insertByTime []

/-- A raw fixation XLSX row after timestamp coercion (`none` = NaT). -/
structure RawFix where
  start_timestamp_ns : Option ℤ
  house_nr : ℤ
  frame_nr : Option ℤ
  session : Option String
deriving DecidableEq

/-- A fixation row that survived `dropna(subset=['start_timestamp_ns'])`. -/
structure Fixation where
  start_timestamp_ns : ℤ
  house_nr : ℤ
  frame_nr : Option ℤ
  session : Option String
deriving DecidableEq

/-- `dropna(subset=['start_timestamp_ns'])` on one row. -/
def toFixation (r : RawFix) : Option Fixation :=
  match r.start_timestamp_ns with
  | none => none
  | some t => some ⟨t, r.house_nr, r.frame_nr, r.session⟩

/-- The fixation loader:
`fix_df[(fix_df['house_nr'] != 0) & (fix_df['house_nr'].isin(house_coords.keys()))]`
after dropping NaT timestamps. -/
def fix_clean (registry : Registry) (rows : List RawFix) : List Fixation :=
  (rows.filterMap toFixation).filter
    (fun f => f.house_nr != 0 && (List.lookup f.house_nr registry).isSome)

/-- `(gps_df['synced_time'] - ts).abs()` for one sample: the timedelta
magnitude in nanoseconds. -/
def absDiff (ts : ℤ) (s : Sample) : ℕ := (s.synced_time - ts).natAbs

/-- The scan behind `Series.idxmin`: keep the current best and replace it
only on a strictly smaller difference, so the first minimum in series
order wins. -/
def argminAbsAux (ts : ℤ) (best : Sample) : List Sample → Sample
  | [] => best
  | x :: rest => argminAbsAux ts (if absDiff ts x < absDiff ts best then x else best) rest

/-- `find_closest_position`: `idx = (gps_df['synced_time'] - ts).abs().idxmin()`.
On an empty trajectory `idxmin` raises `ValueError` (modelled `none`,
turned into the error by the caller); otherwise the first sample of
minimal absolute time difference is returned. -/
def find_closest_position (ts : ℤ) : List Sample → Option Sample
  | [] => none
  | s :: rest => some (argminAbsAux ts s rest)

/-- One result row appended to `all_results` (shape of `outliers.py`,
which extends `building_distance.py`'s rows by `frame_nr`/`session`). -/
structure DistanceResult where
  expl : ℕ
  et : ℕ
  house_nr : ℤ
  building_name : String
  fixation_time : ℤ
  person_position : ℚ × ℚ
  target_position : ℚ × ℚ
  distance_m : ℚ
  frame_nr : Option ℤ
  session : Option String
deriving DecidableEq

/-- The geodesic distance oracle `geopy.distance.geodesic(..).meters`,
an external collaborator passed in as a function. -/
abbrev Geod := (ℚ × ℚ) → (ℚ × ℚ) → ℚ

/-- The `for _, row in fix_df.iterrows():` loop of one session pair:
skip rows whose `house_nr` is not a registry key (`if house_id in
house_coords`), align the rest against the trajectory — raising
`emptySeriesArgmin` when the trajectory is empty — and append a
result record.  An exception aborts the loop (there is no try/except). -/
def sessionLoop (geod : Geod) (registry : Registry) (expl et : ℕ) (gps : List Sample) :
    List Fixation → Except PyError (List DistanceResult)
  | [] => .ok []
  | f :: fs =>
    match List.lookup f.house_nr registry with
    | none => sessionLoop geod registry expl et gps fs
    | some b =>
      match find_closest_position f.start_timestamp_ns gps with
      | none => .error .emptySeriesArgmin
      | some s =>
        match sessionLoop geod registry expl et gps fs with
        | .error e => .error e
        | .ok rest =>
          .ok (⟨expl, et, f.house_nr, b.name, f.start_timestamp_ns,
                (s.latitude, s.longitude), (b.latitude, b.longitude),
                geod (s.latitude, s.longitude) (b.latitude, b.longitude),
                f.frame_nr, f.session⟩ :: rest)

/-- One session pair's processing body: clean both inputs, then the
fixation loop. -/
def processSession (geod : Geod) (registry : Registry) (expl et : ℕ)
    (gpsRows : List RawGps) (fixRows : List RawFix) : Except PyError (List DistanceResult) :=
  sessionLoop geod registry expl et (gps_clean gpsRows) (fix_clean registry fixRows)

/-- One (exploration, tracker) combination of the batch loop: `none`
files model `os.path.exists(...) == False`. -/
structure SessionPair where
  expl : ℕ
  et : ℕ
  gps_file : Option (List RawGps)
  fix_file : Option (List RawFix)
deriving DecidableEq

/-- `if not (os.path.exists(gps_path) and os.path.exists(fix_path)):
print(...); continue` — a pair with a missing file contributes nothing
and does not raise; otherwise the session body runs. -/
def processPair (geod : Geod) (registry : Registry) (p : SessionPair) :
    Except PyError (List DistanceResult) :=
  match p.gps_file, p.fix_file with
  | some g, some f => processSession geod registry p.expl p.et g f
  | _, _ => .ok []

/-- The whole `for expl ... for et ...` batch, accumulating into
`all_results`.  An uncaught exception in any pair kills the script, so
nothing at all is delivered — modelled by the `Except` short-circuit. -/
def processBatch (geod : Geod) (registry : Registry) :
    List SessionPair → Except PyError (List DistanceResult)
  | [] => .ok []
  | p :: ps =>
    match processPair geod registry p with
    | .error e => .error e
    | .ok rs =>
      match processBatch geod registry ps with
      | .error e => .error e
      | .ok rest => .ok (rs ++ rest)

/-- Insertion step of the ascending value sort used by the quantile. -/
def insertSorted (x : ℚ) : List ℚ → List ℚ
  | [] => [x]
  | y :: ys => if x ≤ y then x :: y :: ys else y :: insertSorted x ys

/-- The values of a series in ascending order. -/
def sortRat (l : List ℚ) : List ℚ := l.foldr insertSorted []

/-- `Series.quantile(q)` with the default linear interpolation: with the
sorted values `s` of length `n`, the virtual index is `h = q * (n - 1)`
and the result interpolates between `s[floor h]` and the next value. -/
def quantileLinear (q : ℚ) (xs : List ℚ) : ℚ :=
  match sortRat xs with
  | [] => 0
  | s =>
    let n := s.length
    let h : ℚ := q * (n - 1)
    let i : ℕ := (⌊h⌋).toNat
    let f : ℚ := h - (i : ℚ)
    let lo := s.getD i 0
    let hi := s.getD (min (i + 1) (n - 1)) 0
    lo + f * (hi - lo)

/-- `Q1 = distance_df['distance_m'].quantile(0.25)`. -/
def Q1 (ds : List ℚ) : ℚ := quantileLinear (1/4) ds

/-- `Q3 = distance_df['distance_m'].quantile(0.75)`. -/
def Q3 (ds : List ℚ) : ℚ := quantileLinear (3/4) ds

/-- `IQR = Q3 - Q1`. -/
def IQR (ds : List ℚ) : ℚ := Q3 ds - Q1 ds

/-- The columns of `pd.DataFrame(all_results)`: the union of the record
keys, and in particular no columns at all when the record list is empty. -/
def dfColumns (results : List DistanceResult) : List String :=
  match results with
  | [] => []
  | _ => ["expl", "et", "house_nr", "building_name", "fixation_time",
          "person_position", "target_position", "distance_m", "frame_nr", "session"]

/-- `distance_df['distance_m']`: raises `KeyError` when the column does
not exist (which is the case exactly for the empty frame). -/
def distanceColumn (results : List DistanceResult) : Except PyError (List ℚ) :=
  if "distance_m" ∈ dfColumns results then .ok (results.map DistanceResult.distance_m)
  else .error .keyError

/-- Lines 129-133 of `outliers.py`: access the distance column, compute
the pooled Q1/Q3/IQR once, and keep the rows strictly outside
`[Q1 - 1.5*IQR, Q3 + 1.5*IQR]`. -/
def outlierStep (results : List DistanceResult) : Except PyError (List DistanceResult) :=
  match distanceColumn results with
  | .error e => .error e
  | .ok ds =>
    .ok (results.filter fun r =>
      decide (r.distance_m < Q1 ds - 3/2 * IQR ds) ||
      decide (Q3 ds + 3/2 * IQR ds < r.distance_m))

/-- A result record carrying a given distance and fixed provenance, used
to instantiate the pooled-distance scenario. -/
def mkScenarioResult (d : ℚ) : DistanceResult :=
  ⟨1, 1, 1, "Punkt 1", 0, (0, 0), (0, 0), d, none, none⟩

/-! ## Helper lemmas -/

lemma lookup_dictInsert (m : Registry) (k : ℤ) (b : Building) :
    List.lookup k (dictInsert m k b) = some b := by
  induction m with
  | nil => simp [dictInsert, List.lookup]
  | cons e t ih =>
    obtain ⟨e1, e2⟩ := e
    rw [dictInsert] at ih ⊢
    rw [List.filter_cons]
    by_cases hk : e1 = k
    · simpa [hk] using ih
    · have hbe : (k == e1) = false := by simp [Ne.symm hk]
      rw [if_pos (by simp [hk]), List.cons_append]
      simpa [List.lookup, hbe] using ih

lemma processPair_empty_registry (geod : Geod) (p : SessionPair) :
    processPair geod [] p = .ok [] := by
  cases hg : p.gps_file with
  | none => simp [processPair, hg]
  | some g =>
    cases hf : p.fix_file with
    | none => simp [processPair, hg, hf]
    | some f =>
      have hclean : fix_clean [] f = [] := by
        simp [fix_clean, List.filter_eq_nil_iff, List.lookup]
      simp [processPair, hg, hf, processSession, hclean, sessionLoop]

lemma processBatch_empty_registry (geod : Geod) (ps : List SessionPair) :
    processBatch geod [] ps = .ok [] := by
  induction ps with
  | nil => rfl
  | cons p t ih => simp [processBatch, processPair_empty_registry, ih]

/-! ## Claim theorems -/

/-- C10: if the pooled collection of `DistanceResult`s is empty, the
outlier step fails with a `KeyError` rather than returning an empty
outlier set: the empty `pd.DataFrame` has no columns at all, so the
quantile computation's column access `distance_df['distance_m']` raises. -/
theorem outlier_step_on_empty_pool_raises :
    dfColumns [] = [] ∧ outlierStep [] = .error PyError.keyError := by
  exact ⟨rfl, rfl⟩

/-- C4 counterexample: an archive whose entries contain no `.kml` name —
even one still holding a perfectly good placemark under a different
extension — makes the loader return the empty registry normally instead
of failing with any archive-format error. -/
theorem no_kml_entry_loader_returns_empty_registry :
    loadRegistry [("photos/overlay.png", [⟨some "Punkt 3", some [13, 52]⟩]),
                  ("notes.txt", [])] = .ok [] := by
  rfl

/-- C4 amended: when no archive entry ends in `.kml`, the loader does not
fail: `kml_file` stays `None`, the parse is skipped and the registry is
left empty; the run silently continues, and with the empty registry every
fixation of every session pair is filtered out, so the whole batch yields
zero results. -/
theorem no_kml_entry_empty_registry_continues (archive : List (String × List Placemark))
    (geod : Geod) (ps : List SessionPair) (h : findKmlEntry archive = none) :
    loadRegistry archive = .ok [] ∧ processBatch geod [] ps = .ok [] := by
  refine ⟨?_, processBatch_empty_registry geod ps⟩
  simp [loadRegistry, h]

/-- C4 witness: the amended statement at a concrete kml-free archive,
one concrete session pair list and a concrete geodesic oracle. -/
theorem no_kml_entry_empty_registry_continues_witness :
    loadRegistry [("photos/overlay.png", [⟨some "Punkt 3", some [13, 52]⟩])] = .ok [] ∧
    processBatch (fun _ _ => 0) []
      [⟨1, 1, some [⟨some 52, some 13, some 0⟩], some [⟨some 5, 3, none, none⟩]⟩] = .ok [] :=
  no_kml_entry_empty_registry_continues _ _ _ rfl

/-- C6 counterexample: on the pooled distances `[1,2,2,3,3,3,4,4,5,100]`
the classifier's `Q1` (pandas linear-interpolation quantile) is `9/4`,
not the claimed `2`. -/
theorem pooled_scenario_q1_not_two :
    Q1 [1, 2, 2, 3, 3, 3, 4, 4, 5, 100] = 9/4 ∧
    ¬ Q1 [1, 2, 2, 3, 3, 3, 4, 4, 5, 100] = 2 := by
  have h : Q1 [1, 2, 2, 3, 3, 3, 4, 4, 5, 100] = 9/4 := by
    norm_num [Q1, quantileLinear, sortRat, insertSorted, List.getD,
      show Int.toNat 2 = 2 from rfl]
  exact ⟨h, by rw [h]; norm_num⟩

/-- C6 amended: for the pooled distance multiset `[1,2,2,3,3,3,4,4,5,100]`
the classifier computes `Q1 = 2.25`, `Q3 = 4` and `IQR = 1.75`, giving the
outlier bounds `(-0.375, 6.625)`, and classifies exactly the value `100`
as an outlier and no other value. -/
theorem pooled_scenario_outlier_exactly_hundred :
    Q1 [1, 2, 2, 3, 3, 3, 4, 4, 5, 100] = 9/4 ∧
    Q3 [1, 2, 2, 3, 3, 3, 4, 4, 5, 100] = 4 ∧
    IQR [1, 2, 2, 3, 3, 3, 4, 4, 5, 100] = 7/4 ∧
    Q1 [1, 2, 2, 3, 3, 3, 4, 4, 5, 100] - 3/2 * IQR [1, 2, 2, 3, 3, 3, 4, 4, 5, 100]
      = -(3/8) ∧
    Q3 [1, 2, 2, 3, 3, 3, 4, 4, 5, 100] + 3/2 * IQR [1, 2, 2, 3, 3, 3, 4, 4, 5, 100]
      = 53/8 ∧
    outlierStep (List.map mkScenarioResult [1, 2, 2, 3, 3, 3, 4, 4, 5, 100])
      = .ok [mkScenarioResult 100] := by
  have h1 : Q1 [1, 2, 2, 3, 3, 3, 4, 4, 5, 100] = 9/4 := by
    norm_num [Q1, quantileLinear, sortRat, insertSorted, List.getD,
      show Int.toNat 2 = 2 from rfl]
  have h3 : Q3 [1, 2, 2, 3, 3, 3, 4, 4, 5, 100] = 4 := by
    norm_num [Q3, quantileLinear, sortRat, insertSorted, List.getD,
      show Int.toNat 6 = 6 from rfl]
  have hiqr : IQR [1, 2, 2, 3, 3, 3, 4, 4, 5, 100] = 7/4 := by
    rw [IQR, h1, h3]; norm_num
  refine ⟨h1, h3, hiqr, by rw [h1, hiqr]; norm_num, by rw [h3, hiqr]; norm_num, ?_⟩
  have hds : (List.map mkScenarioResult [1, 2, 2, 3, 3, 3, 4, 4, 5, 100]).map
      DistanceResult.distance_m = [1, 2, 2, 3, 3, 3, 4, 4, 5, 100] := by
    simp [mkScenarioResult]
  have hcol : distanceColumn (List.map mkScenarioResult [1, 2, 2, 3, 3, 3, 4, 4, 5, 100])
      = .ok [1, 2, 2, 3, 3, 3, 4, 4, 5, 100] := by
    rw [distanceColumn, if_pos (by simp [dfColumns])]
    exact congrArg Except.ok hds
  rw [outlierStep, hcol]
  norm_num [mkScenarioResult, List.filter, h1, h3, hiqr]

/-- C9: each placemark coordinate string is a comma-separated
`lon,lat[,alt]`; the loader reads the first field as longitude and the
second as latitude and stores them swapped, so the registry record it
creates has `latitude = lat` and `longitude = lon`. -/
theorem placemark_coords_swapped (m : Registry) (nt : String) (hid : ℤ)
    (lon lat : ℚ) (rest : List ℚ) (h : punktId nt = some hid) :
    processPlacemark m ⟨some nt, some (lon :: lat :: rest)⟩
      = .ok (dictInsert m hid ⟨lat, lon, nt⟩) ∧
    List.lookup hid (dictInsert m hid ⟨lat, lon, nt⟩) = some ⟨lat, lon, nt⟩ := by
  exact ⟨by simp [processPlacemark, h], lookup_dictInsert m hid ⟨lat, lon, nt⟩⟩

/-- C9 witness: the source text `13.405,52.52,0` for placemark
`"Punkt 7"` round-trips into a registry record with latitude `52.52`
and longitude `13.405`. -/
theorem placemark_coords_swapped_witness :
    processPlacemark [] ⟨some "Punkt 7", some [13.405, 52.52, 0]⟩
      = .ok (dictInsert [] 7 ⟨52.52, 13.405, "Punkt 7"⟩) ∧
    List.lookup 7 (dictInsert [] 7 ⟨52.52, 13.405, "Punkt 7"⟩)
      = some ⟨52.52, 13.405, "Punkt 7"⟩ :=
  placemark_coords_swapped [] "Punkt 7" 7 13.405 52.52 [0] (by rfl)

/-- C7: a session pair whose trajectory file or fixation file is missing
is skipped entirely: it contributes zero `DistanceResult`s, raises
nothing, and the batch over the remaining pairs is exactly the batch
without that pair. -/
theorem missing_file_pair_skipped (geod : Geod) (registry : Registry) (p : SessionPair)
    (l₁ l₂ : List SessionPair) (h : p.gps_file = none ∨ p.fix_file = none) :
    processPair geod registry p = .ok [] ∧
    processBatch geod registry (l₁ ++ p :: l₂) = processBatch geod registry (l₁ ++ l₂) := by
  have hp : processPair geod registry p = .ok [] := by
    rcases h with h | h
    · simp [processPair, h]
    · cases hg : p.gps_file <;> simp [processPair, hg, h]
  refine ⟨hp, ?_⟩
  induction l₁ with
  | nil =>
    simp only [List.nil_append, processBatch, hp]
    cases hb : processBatch geod registry l₂ <;> simp
  | cons x t ih =>
    simp only [List.cons_append, processBatch, List.append_eq, ih]

/-- C7 witness: a two-slot batch where the second pair's trajectory file
is missing behaves exactly like the one-pair batch. -/
theorem missing_file_pair_skipped_witness :
    processPair (fun _ _ => 0) [(1, ⟨52, 13, "Punkt 1"⟩)] ⟨1, 2, none, some []⟩ = .ok [] ∧
    processBatch (fun _ _ => 0) [(1, ⟨52, 13, "Punkt 1"⟩)]
      ([⟨1, 1, some [⟨some 52, some 13, some 0⟩], some [⟨some 5, 1, none, none⟩]⟩] ++
        ⟨1, 2, none, some []⟩ :: []) =
      processBatch (fun _ _ => 0) [(1, ⟨52, 13, "Punkt 1"⟩)]
        ([⟨1, 1, some [⟨some 52, some 13, some 0⟩], some [⟨some 5, 1, none, none⟩]⟩] ++ []) :=
  missing_file_pair_skipped _ _ _ _ _ (Or.inl rfl)

/-- C3 counterexample: a batch of two session pairs where the first has a
valid fixation but an empty cleaned trajectory and the second is fine.
The empty-trajectory failure is not caught anywhere: the whole batch
aborts with the error, so the second pair's result — which that pair
alone would produce — is never delivered, refuting "the session pair is
skipped and the remaining session pairs are still processed". -/
theorem empty_trajectory_aborts_whole_batch :
    processBatch (fun _ _ => 0) [(1, ⟨52, 13, "Punkt 1"⟩)]
      [⟨1, 1, some [], some [⟨some 5, 1, none, none⟩]⟩,
       ⟨1, 2, some [⟨some 52, some 13, some 10⟩], some [⟨some 9, 1, none, none⟩]⟩]
      = .error PyError.emptySeriesArgmin ∧
    processPair (fun _ _ => 0) [(1, ⟨52, 13, "Punkt 1"⟩)]
      ⟨1, 2, some [⟨some 52, some 13, some 10⟩], some [⟨some 9, 1, none, none⟩]⟩
      = .ok [⟨1, 2, 1, "Punkt 1", 9, (52, 13), (52, 13), 0, none, none⟩] :=
  ⟨rfl, rfl⟩

/-- C3 amended: when a session has fixation events but an empty cleaned
trajectory, alignment does fail for every fixation (the nearest-sample
lookup has nothing to return and `idxmin` raises) rather than silently
producing a result — but the failure is not caught or logged, no dropped
count is reported, and the uncaught error aborts the whole batch, so the
remaining session pairs are not processed. -/
theorem empty_trajectory_fails_uncaught (geod : Geod) (registry : Registry)
    (expl et : ℕ) (gpsRows : List RawGps) (fixRows : List RawFix) (rest : List SessionPair)
    (hg : gps_clean gpsRows = []) (hf : fix_clean registry fixRows ≠ []) :
    (∀ t : ℤ, find_closest_position t ([] : List Sample) = none) ∧
    processSession geod registry expl et gpsRows fixRows = .error PyError.emptySeriesArgmin ∧
    processBatch geod registry (⟨expl, et, some gpsRows, some fixRows⟩ :: rest)
      = .error PyError.emptySeriesArgmin := by
  have hsession : processSession geod registry expl et gpsRows fixRows
      = .error PyError.emptySeriesArgmin := by
    rw [processSession, hg]
    cases hc : fix_clean registry fixRows with
    | nil => exact absurd hc hf
    | cons f fs =>
      have hmem : f ∈ fix_clean registry fixRows := by
        rw [hc]; exact List.mem_cons_self f fs
      rw [fix_clean] at hmem
      have hpred := List.of_mem_filter hmem
      rw [Bool.and_eq_true] at hpred
      obtain ⟨b, hb⟩ := Option.isSome_iff_exists.mp hpred.2
      simp [sessionLoop, hb, find_closest_position]
  refine ⟨fun t => rfl, hsession, ?_⟩
  simp [processBatch, processPair, hsession]

/-- C3 amended witness: the failure modes at a concrete session with one
valid fixation and an empty trajectory file. -/
theorem empty_trajectory_fails_uncaught_witness :
    processSession (fun _ _ => 0) [(1, ⟨52, 13, "Punkt 1"⟩)] 1 1 [] [⟨some 5, 1, none, none⟩]
      = .error PyError.emptySeriesArgmin ∧
    processBatch (fun _ _ => 0) [(1, ⟨52, 13, "Punkt 1"⟩)]
      (⟨1, 1, some [], some [⟨some 5, 1, none, none⟩]⟩ :: [])
      = .error PyError.emptySeriesArgmin :=
  (empty_trajectory_fails_uncaught (fun _ _ => 0) [(1, ⟨52, 13, "Punkt 1"⟩)] 1 1 []
    [⟨some 5, 1, none, none⟩] [] rfl (by decide)).2

lemma sessionLoop_ok_mem (geod : Geod) (registry : Registry) (expl et : ℕ)
    (gps : List Sample) :
    ∀ (l : List Fixation) (rs : List DistanceResult),
      sessionLoop geod registry expl et gps l = .ok rs →
      ∀ r ∈ rs, ∃ f ∈ l, r.house_nr = f.house_nr ∧
        (List.lookup f.house_nr registry).isSome := by
  intro l
  induction l with
  | nil =>
    intro rs h r hr
    rw [sessionLoop] at h
    cases h
    exact absurd hr (List.not_mem_nil r)
  | cons f fs ih =>
    intro rs h r hr
    rw [sessionLoop] at h
    cases hl : List.lookup f.house_nr registry with
    | none =>
      rw [hl] at h
      obtain ⟨f', hf', hprop⟩ := ih rs h r hr
      exact ⟨f', List.mem_cons_of_mem f hf', hprop⟩
    | some b =>
      rw [hl] at h
      cases hc : find_closest_position f.start_timestamp_ns gps with
      | none => rw [hc] at h; cases h
      | some s =>
        rw [hc] at h
        cases hrec : sessionLoop geod registry expl et gps fs with
        | error e => rw [hrec] at h; cases h
        | ok rest =>
          rw [hrec] at h
          cases h
          rcases List.mem_cons.mp hr with rfl | hr2
          · exact ⟨f, List.mem_cons_self f fs, rfl, by rw [hl]; rfl⟩
          · obtain ⟨f', hf', hprop⟩ := ih rest hrec r hr2
            exact ⟨f', List.mem_cons_of_mem f hf', hprop⟩

/-- C5: fixation rows whose `house_nr` is `0` or not a registry key are
dropped by the loader's filter before alignment, and consequently every
`DistanceResult` of a successful session carries a building id that is
nonzero and present in the registry. -/
theorem no_invalid_building_id_in_results (geod : Geod) (registry : Registry)
    (expl et : ℕ) (gpsRows : List RawGps) (fixRows : List RawFix) (rs : List DistanceResult)
    (h : processSession geod registry expl et gpsRows fixRows = .ok rs) :
    (∀ f ∈ fix_clean registry fixRows,
        f.house_nr ≠ 0 ∧ (List.lookup f.house_nr registry).isSome) ∧
    (∀ r ∈ rs, r.house_nr ≠ 0 ∧ (List.lookup r.house_nr registry).isSome) := by
  have hfilter : ∀ f ∈ fix_clean registry fixRows,
      f.house_nr ≠ 0 ∧ (List.lookup f.house_nr registry).isSome := by
    intro f hf
    rw [fix_clean] at hf
    have hpred := List.of_mem_filter hf
    rw [Bool.and_eq_true] at hpred
    exact ⟨bne_iff_ne.mp hpred.1, hpred.2⟩
  refine ⟨hfilter, fun r hr => ?_⟩
  obtain ⟨f, hf, hnr, _⟩ := sessionLoop_ok_mem geod registry expl et
    (gps_clean gpsRows) (fix_clean registry fixRows) rs h r hr
  obtain ⟨h0, hsome⟩ := hfilter f hf
  rw [hnr]
  exact ⟨h0, hsome⟩

/-- C5 witness: a concrete session whose fixation file contains a
`house_nr = 0` row, a row with an id absent from the registry and one
valid row; only the valid one survives, and the produced result
references it. -/
theorem no_invalid_building_id_in_results_witness :
    (∀ f ∈ fix_clean ([(1, ⟨52, 13, "Punkt 1"⟩)] : Registry)
        [⟨some 1, 0, none, none⟩, ⟨some 2, 9, none, none⟩, ⟨some 3, 1, none, none⟩],
        f.house_nr ≠ 0 ∧
          (List.lookup f.house_nr ([(1, ⟨52, 13, "Punkt 1"⟩)] : Registry)).isSome) ∧
    (∀ r ∈ [(⟨1, 1, 1, "Punkt 1", 3, (52, 13), (52, 13), 0, none, none⟩ : DistanceResult)],
        r.house_nr ≠ 0 ∧
          (List.lookup r.house_nr ([(1, ⟨52, 13, "Punkt 1"⟩)] : Registry)).isSome) :=
  no_invalid_building_id_in_results (fun _ _ => 0) [(1, ⟨52, 13, "Punkt 1"⟩)] 1 1
    [⟨some 52, some 13, some 0⟩]
    [⟨some 1, 0, none, none⟩, ⟨some 2, 9, none, none⟩, ⟨some 3, 1, none, none⟩]
    [⟨1, 1, 1, "Punkt 1", 3, (52, 13), (52, 13), 0, none, none⟩] rfl

lemma argminAbsAux_first_min (ts : ℤ) :
    ∀ (l : List Sample) (best : Sample),
      ∃ l₁ l₂, best :: l = l₁ ++ argminAbsAux ts best l :: l₂ ∧
        (∀ x ∈ l₁, absDiff ts (argminAbsAux ts best l) < absDiff ts x) ∧
        (∀ x ∈ best :: l, absDiff ts (argminAbsAux ts best l) ≤ absDiff ts x) := by
  intro l
  induction l with
  | nil =>
    intro best
    refine ⟨[], [], rfl, by simp, ?_⟩
    intro x hx
    rw [List.mem_singleton.mp hx]
    exact le_refl _
  | cons x rest ih =>
    intro best
    simp only [argminAbsAux]
    by_cases hx : absDiff ts x < absDiff ts best
    · rw [if_pos hx]
      obtain ⟨l₁, l₂, hdec, hlt, hle⟩ := ih x
      have hcbest : absDiff ts (argminAbsAux ts x rest) < absDiff ts best :=
        lt_of_le_of_lt (hle x (List.mem_cons_self x rest)) hx
      refine ⟨best :: l₁, l₂, ?_, ?_, ?_⟩
      · rw [List.cons_append, ← hdec]
      · intro y hy
        rcases List.mem_cons.mp hy with rfl | hy2
        · exact hcbest
        · exact hlt y hy2
      · intro y hy
        rcases List.mem_cons.mp hy with rfl | hy2
        · exact le_of_lt hcbest
        · exact hle y hy2
    · rw [if_neg hx]
      have hbx : absDiff ts best ≤ absDiff ts x := not_lt.mp hx
      obtain ⟨l₁, l₂, hdec, hlt, hle⟩ := ih best
      cases l₁ with
      | nil =>
        rw [List.nil_append] at hdec
        have hbc : best = argminAbsAux ts best rest := (List.cons.injEq _ _ _ _ ▸ hdec).1
        refine ⟨[], x :: rest, ?_, by simp, ?_⟩
        · rw [List.nil_append, ← hbc]
        · intro y hy
          rcases List.mem_cons.mp hy with rfl | hy2
          · rw [← hbc]
          · rcases List.mem_cons.mp hy2 with rfl | hy3
            · rw [← hbc]; exact hbx
            · exact hle y (List.mem_cons_of_mem best hy3)
      | cons b m =>
        rw [List.cons_append] at hdec
        have hb : best = b := (List.cons.injEq _ _ _ _ ▸ hdec).1
        have hr : rest = m ++ argminAbsAux ts best rest :: l₂ :=
          (List.cons.injEq _ _ _ _ ▸ hdec).2
        have hcb : absDiff ts (argminAbsAux ts best rest) < absDiff ts best := by
          have hlb := hlt b (List.mem_cons_self b m)
          rwa [← hb] at hlb
        refine ⟨best :: x :: m, l₂, ?_, ?_, ?_⟩
        · rw [List.cons_append, List.cons_append, ← hr]
        · intro y hy
          rcases List.mem_cons.mp hy with rfl | hy2
          · exact hcb
          · rcases List.mem_cons.mp hy2 with rfl | hy3
            · exact lt_of_lt_of_le hcb hbx
            · exact hlt y (hb ▸ List.mem_cons_of_mem b hy3)
        · intro y hy
          rcases List.mem_cons.mp hy with rfl | hy2
          · exact hle y (List.mem_cons_self y rest)
          · rcases List.mem_cons.mp hy2 with rfl | hy3
            · exact le_of_lt (lt_of_lt_of_le hcb hbx)
            · exact hle y (List.mem_cons_of_mem best hy3)

/-- C1: on a non-empty trajectory, `find_closest_position` returns a
sample of the trajectory whose absolute time difference to the fixation
timestamp is no larger than that of every other sample, and every sample
placed before the returned one in the (sorted) trajectory has a strictly
larger difference — so among ties the first sample in sorted order is
chosen. -/
theorem matched_sample_minimizes_abs_time_diff (gps : List Sample) (ts : ℤ)
    (h : gps ≠ []) :
    ∃ c l₁ l₂, find_closest_position ts gps = some c ∧
      gps = l₁ ++ c :: l₂ ∧
      (∀ x ∈ gps, absDiff ts c ≤ absDiff ts x) ∧
      (∀ x ∈ l₁, absDiff ts c < absDiff ts x) := by
  cases gps with
  | nil => exact absurd rfl h
  | cons s rest =>
    obtain ⟨l₁, l₂, hdec, hlt, hle⟩ := argminAbsAux_first_min ts rest s
    exact ⟨argminAbsAux ts s rest, l₁, l₂, rfl, hdec, hle, hlt⟩

/-- C1 witness: the spec scenario — trajectory samples at times 0 and 10
and a fixation at time 9 — matches the sample at time 10 (difference 1
beats difference 9), and the minimality statement is instantiated there. -/
theorem matched_sample_minimizes_abs_time_diff_witness :
    find_closest_position 9 [⟨52, 13.0001, 0⟩, ⟨52, 13, 10⟩] = some ⟨52, 13, 10⟩ ∧
    (∃ c l₁ l₂, find_closest_position 9 [⟨52, 13.0001, 0⟩, ⟨52, 13, 10⟩] = some c ∧
      [(⟨52, 13.0001, 0⟩ : Sample), ⟨52, 13, 10⟩] = l₁ ++ c :: l₂ ∧
      (∀ x ∈ [(⟨52, 13.0001, 0⟩ : Sample), ⟨52, 13, 10⟩], absDiff 9 c ≤ absDiff 9 x) ∧
      (∀ x ∈ l₁, absDiff 9 c < absDiff 9 x)) :=
  ⟨rfl, matched_sample_minimizes_abs_time_diff [⟨52, 13.0001, 0⟩, ⟨52, 13, 10⟩] 9
    (List.cons_ne_nil _ _)⟩

/-- C2: whenever the outlier step succeeds (non-empty pool), a result is
in its output iff it is a pooled result lying strictly below
`Q1 - 1.5*IQR` or strictly above `Q3 + 1.5*IQR`, where Q1, Q3 and IQR
are computed from the pooled distances of all sessions — one global
threshold, not a per-session or per-group one. -/
theorem outlier_iff_global_iqr (results : List DistanceResult) (r : DistanceResult)
    (rs : List DistanceResult) (h : outlierStep results = .ok rs) :
    results ≠ [] ∧
    (r ∈ rs ↔ r ∈ results ∧
      (r.distance_m < Q1 (results.map DistanceResult.distance_m)
          - 3/2 * IQR (results.map DistanceResult.distance_m) ∨
        Q3 (results.map DistanceResult.distance_m)
          + 3/2 * IQR (results.map DistanceResult.distance_m) < r.distance_m)) := by
  cases results with
  | nil => simp [outlierStep, distanceColumn, dfColumns] at h
  | cons a as =>
    have hcol : distanceColumn (a :: as) = .ok ((a :: as).map DistanceResult.distance_m) := by
      rw [distanceColumn, if_pos]
      simp [dfColumns]
    rw [outlierStep, hcol] at h
    have hrs : rs = (a :: as).filter (fun x =>
        decide (x.distance_m < Q1 ((a :: as).map DistanceResult.distance_m)
          - 3/2 * IQR ((a :: as).map DistanceResult.distance_m)) ||
        decide (Q3 ((a :: as).map DistanceResult.distance_m)
          + 3/2 * IQR ((a :: as).map DistanceResult.distance_m) < x.distance_m)) :=
      (Except.ok.inj h).symm
    subst hrs
    refine ⟨List.cons_ne_nil a as, ?_⟩
    simp [List.mem_filter]

/-- C2 witness: a one-result pool with distance 5; the bounds collapse to
(5, 5), the outlier set is empty, and the classification equivalence is
instantiated there. -/
theorem outlier_iff_global_iqr_witness :
    [(⟨1, 1, 1, "Punkt 1", 0, (0, 0), (0, 0), 5, none, none⟩ : DistanceResult)] ≠ [] ∧
    ((⟨1, 1, 1, "Punkt 1", 0, (0, 0), (0, 0), 5, none, none⟩ : DistanceResult)
        ∈ ([] : List DistanceResult) ↔
      (⟨1, 1, 1, "Punkt 1", 0, (0, 0), (0, 0), 5, none, none⟩ : DistanceResult)
          ∈ [(⟨1, 1, 1, "Punkt 1", 0, (0, 0), (0, 0), 5, none, none⟩ : DistanceResult)] ∧
      ((5 : ℚ) < Q1 ([(⟨1, 1, 1, "Punkt 1", 0, (0, 0), (0, 0), 5, none, none⟩ :
            DistanceResult)].map DistanceResult.distance_m)
          - 3/2 * IQR ([(⟨1, 1, 1, "Punkt 1", 0, (0, 0), (0, 0), 5, none, none⟩ :
            DistanceResult)].map DistanceResult.distance_m) ∨
        Q3 ([(⟨1, 1, 1, "Punkt 1", 0, (0, 0), (0, 0), 5, none, none⟩ :
            DistanceResult)].map DistanceResult.distance_m)
          + 3/2 * IQR ([(⟨1, 1, 1, "Punkt 1", 0, (0, 0), (0, 0), 5, none, none⟩ :
            DistanceResult)].map DistanceResult.distance_m) < (5 : ℚ))) :=
  outlier_iff_global_iqr
    [⟨1, 1, 1, "Punkt 1", 0, (0, 0), (0, 0), 5, none, none⟩]
    ⟨1, 1, 1, "Punkt 1", 0, (0, 0), (0, 0), 5, none, none⟩ []
    (by norm_num [outlierStep, distanceColumn, dfColumns, Q1, Q3, IQR, quantileLinear,
      sortRat, insertSorted, List.getD, List.filter, show Int.toNat 0 = 0 from rfl])
